import Mathlib

/-!
Verification development for the WMTS image layer (`WmtsLayer`) of the
WebWorldWind repository: a shallow embedding in Lean 4 of the layer's data
model, capabilities negotiation, tile addressing, Mercator unprojection,
retrieval pipeline and quadtree traversal, together with theorems settling
the specification claims about them.

Numeric convention: JavaScript numbers are modelled by `ℚ` (the claims under
scrutiny are exact-arithmetic statements), array indices and counts by `Nat`.
Fallible operations (the `if`/`else if` chains that can fall through and
return `undefined`) are modelled with `Option`.
-/

/-- Geographic bounding box, from `geom/Sector` as consumed by this file:
`{minLatitude, maxLatitude, minLongitude, maxLongitude}`. -/
structure Sector where
  minLatitude : ℚ
  maxLatitude : ℚ
  minLongitude : ℚ
  maxLongitude : ℚ
deriving DecidableEq

/-- `Sector.deltaLatitude()`. -/
def Sector.deltaLatitude (s : Sector) : ℚ := s.maxLatitude - s.minLatitude

/-- `Sector.deltaLongitude()`. -/
def Sector.deltaLongitude (s : Sector) : ℚ := s.maxLongitude - s.minLongitude

/-- One WMTS tile matrix (one pyramid level): the fields of the capabilities
tile-matrix objects that `WmtsLayer` reads (`levelNumber`, `identifier`,
`matrixWidth`, `matrixHeight`, `tileWidth`, `tileHeight`, `topLeftCorner`,
`scaleDenominator`). -/
structure TileMatrix where
  levelNumber : Nat
  identifier : String
  matrixWidth : Nat
  matrixHeight : Nat
  tileWidth : Nat
  tileHeight : Nat
  topLeftCorner : ℚ × ℚ
  scaleDenominator : ℚ
deriving DecidableEq

/-- A tile matrix set as read from the capabilities document and as produced
by `convertTileMatrixSets` (the converted object copies `identifier`,
`supportedCRS`, optionally `wellKnownScaleSet` and `boundingBox`, and the
filtered `tileMatrix` list). The bounding box is not inspected by any claim,
so it is carried as an uninterpreted optional pair of corners. -/
structure BoundingBoxModel where
  lowerCorner : ℚ × ℚ
  upperCorner : ℚ × ℚ
deriving DecidableEq

structure TileMatrixSetModel where
  identifier : String
  supportedCRS : String
  wellKnownScaleSet : Option String
  boundingBox : Option BoundingBoxModel
  tileMatrix : List TileMatrix
deriving DecidableEq

/-- A quadtree tile (`WmtsLayerTile`): sector, level (the referenced tile
matrix's `levelNumber`), row, column and the composite image-cache path. -/
structure Tile where
  sector : Sector
  levelNumber : Nat
  row : Nat
  column : Nat
  imagePath : String
deriving DecidableEq

/-- Helper for JavaScript `String.prototype.indexOf(sub) >= 0`:
does `pre` occur at the head of `l`? -/
def charsStartWith : List Char → List Char → Bool
  | [], _ => true
  | _ :: _, [] => false
  | a :: as, b :: bs => a == b && charsStartWith as bs

/-- Does `sub` occur anywhere inside `l`? -/
def hasSubChain (sub : List Char) : List Char → Bool
  | [] => charsStartWith sub []
  | l@(_ :: rest) => charsStartWith sub l || hasSubChain sub rest

/-- JavaScript `s.indexOf(sub) >= 0`. -/
def containsSubstring (s sub : String) : Bool := hasSubChain sub.data s.data

/-- `WmtsLayer.isEpsg4326Crs`:
`crs.indexOf("EPSG") >= 0 && crs.indexOf("4326") >= 0`. -/
def isEpsg4326Crs (crs : String) : Bool :=
  containsSubstring crs "EPSG" && containsSubstring crs "4326"

/-- `WmtsLayer.isEpsg3857Crs`: `crs.indexOf("EPSG") >= 0 &&
(crs.indexOf("3857") >= 0 || crs.indexOf("900913") >= 0)`. -/
def isEpsg3857Crs (crs : String) : Bool :=
  containsSubstring crs "EPSG" &&
    (containsSubstring crs "3857" || containsSubstring crs "900913")

/-- `WmtsLayer.isOGCCrs84`:
`crs.indexOf("OGC") >= 0 && crs.indexOf("CRS84") >= 0`. -/
def isOGCCrs84 (crs : String) : Bool :=
  containsSubstring crs "OGC" && containsSubstring crs "CRS84"

example : isEpsg4326Crs "urn:ogc:def:crs:EPSG::4326" = true := by decide
example : isEpsg4326Crs "EPSG:2154" = false := by decide
example : isEpsg3857Crs "EPSG:900913" = true := by decide
example : isOGCCrs84 "urn:ogc:def:crs:OGC:1.3:CRS84" = true := by decide

/-- Modelled from the spec: `util/AbsentResourceList` is not under `src/`.
§4.3/§3 describe a denylist with `markResourceAbsent`, `unmarkResourceAbsent`
and `isResourceAbsent`; the claims settled here use only membership (which
ids are currently marked absent), so the list of marked ids is the model and
the retry count / time window of §4.3 is not represented. -/
def markResourceAbsent (id : String) (l : List String) : List String :=
  if l.contains id then l else id :: l

/-- Modelled from the spec: clearing an absent-mark removes the id. -/
def unmarkResourceAbsent (id : String) (l : List String) : List String :=
  l.filter (fun x => x != id)

/-- Modelled from the spec: a resource is absent while it is marked. -/
def isResourceAbsent (id : String) (l : List String) : Bool := l.contains id

/-- The mutable layer state threaded through a frame: the render list
(`currentTiles`), the shared `currentAncestorTile` field, the in-flight
retrieval list (`currentRetrievals`), the absent-resource list, the GPU
resource cache contents (`dc.gpuResourceCache`, as imagePath/byte-size
pairs — read by the traversal, written by the image callbacks), the
`currentTilesInvalid` flag and a count of redraw events dispatched. -/
structure LayerState where
  currentTiles : List Tile
  currentAncestorTile : Option Tile
  currentRetrievals : List String
  absentList : List String
  gpuCache : List (String × Nat)
  currentTilesInvalid : Bool
  redrawCount : Nat
deriving DecidableEq

/-- `dc.gpuResourceCache.containsResource(key)` (and the truthiness test on
`resourceForKey(key)`, which agrees with it). -/
def cacheContains (cache : List (String × Nat)) (key : String) : Bool :=
  cache.any (fun e => e.fst == key)

/-- `WmtsLayer.isTileTextureInMemory`:
`dc.gpuResourceCache.containsResource(tile.imagePath)`. -/
def isTileTextureInMemory (st : LayerState) (tile : Tile) : Bool :=
  cacheContains st.gpuCache tile.imagePath

/-- The layer configuration and the external collaborators (`dc`, the
geometry tests, `WmtsLayerTile.mustSubdivide` / `subdivideToCache`, URL
resolution) that the per-frame traversal consults but does not define:
* `numLevels` — `this.tileMatrixSet.tileMatrix.length`;
* `detailControl` — `this.detailControl` (default 1.75);
* `expiration` — truthiness of `this.expiration`;
* `mustSubdivide tile s` — `tile.mustSubdivide(dc, s)` (external);
* `textureExpired tile` — `this.isTextureExpired(texture)` for the tile's
  cached texture (external creation-time comparison);
* `visible tile` — `this.isTileVisible(dc, tile)` (external frustum test);
* `sectorIntersects tile` — `this.sector.intersects(tile.sector)` (external);
* `children tile` — `tile.subdivideToCache(nextLevel, this, tileCache)`
  (external; `WmtsLayerTile` is not under `src/`);
* `urlOk tile` — truthiness of `this.resourceUrlForTile(tile, imageFormat)`. -/
structure Env where
  numLevels : Nat
  detailControl : ℚ
  expiration : Bool
  mustSubdivide : Tile → ℚ → Bool
  textureExpired : Tile → Bool
  visible : Tile → Bool
  sectorIntersects : Tile → Bool
  children : Tile → List Tile
  urlOk : Tile → Bool

/-- `WmtsLayer.tileMeetsRenderingCriteria`: start from `this.detailControl`,
multiply by 1.2 when the sector lies entirely poleward of 75°, and accept
when the tile is on the last level or `!tile.mustSubdivide(dc, s)`. -/
def tileMeetsRenderingCriteria (env : Env) (tile : Tile) : Bool :=
  let s : ℚ :=
    if 75 ≤ tile.sector.minLatitude ∨ tile.sector.maxLatitude ≤ -75 then
      env.detailControl * 1.2
    else
      env.detailControl
  tile.levelNumber == env.numLevels - 1 || !(env.mustSubdivide tile s)

/-- `WmtsLayer.retrieveTileImage`: a no-op when the tile's `imagePath` is
already in `currentRetrievals` (`indexOf >= 0`) or marked absent; when the
resolved URL is falsy it sets `currentTilesInvalid` and returns; otherwise it
pushes the `imagePath` onto `currentRetrievals` and dispatches the fetch
(whose callbacks are `onImageLoad` / `onImageError` below). -/
def retrieveTileImage (env : Env) (tile : Tile) (st : LayerState) : LayerState :=
  if st.currentRetrievals.contains tile.imagePath then st
  else if isResourceAbsent tile.imagePath st.absentList then st
  else if !(env.urlOk tile) then { st with currentTilesInvalid := true }
  else { st with currentRetrievals := st.currentRetrievals ++ [tile.imagePath] }

/-- JavaScript `Array.prototype.indexOf`: the index of the first occurrence,
or `none` where the source gets `-1`. -/
def indexOfFirst (value : String) : List String → Option Nat
  | [] => none
  | a :: rest =>
    if a == value then some 0 else (indexOfFirst value rest).map (· + 1)

/-- `WmtsLayer.removeFromCurrentRetrievals`: `indexOf` then
`splice(index, 1)` — remove the first occurrence if present. -/
def removeFromCurrentRetrievals (imagePath : String) (st : LayerState) : LayerState :=
  match indexOfFirst imagePath st.currentRetrievals with
  | some index => { st with currentRetrievals := st.currentRetrievals.eraseIdx index }
  | none => st

/-- `WmtsLayer.addTile`: push the tile when its texture is cached (re-request
when expired); otherwise request it and push the `currentAncestorTile` when
that ancestor's texture is in memory. (`tile.fallbackTile = null` mutates the
tile object only and is not observable by any claim, so it is not carried.) -/
def addTile (env : Env) (tile : Tile) (st : LayerState) : LayerState :=
  if cacheContains st.gpuCache tile.imagePath then
    let st1 := { st with currentTiles := st.currentTiles ++ [tile] }
    if env.expiration && env.textureExpired tile then retrieveTileImage env tile st1
    else st1
  else
    let st1 := retrieveTileImage env tile st
    match st1.currentAncestorTile with
    | some ancestor =>
      if cacheContains st1.gpuCache ancestor.imagePath then
        { st1 with currentTiles := st1.currentTiles ++ [ancestor] }
      else st1
    | none => st1

/-- `WmtsLayer.addTileOrDescendants`. The JavaScript `try`/`finally` saves
the entering `currentAncestorTile` into the local `ancestorTile` (initially
`null`) only when this tile becomes the ancestor-of-record, and the
`finally` block restores it only when that local is truthy. Recursion in the
source terminates because child tiles live one level deeper and the last
level always meets the rendering criteria; the embedding makes that explicit
with a fuel argument (fuel ≥ the number of remaining levels suffices). -/
def addTileOrDescendants (env : Env) : Nat → Tile → LayerState → LayerState
  | 0, _, st => st
  | n + 1, tile, st =>
    if tileMeetsRenderingCriteria env tile then
      addTile env tile st
    else
      let cond := isTileTextureInMemory st tile || tile.levelNumber == 0
      let ancestorTile : Option Tile := if cond then st.currentAncestorTile else none
      let st1 := if cond then { st with currentAncestorTile := some tile } else st
      let st2 := (env.children tile).foldl
        (fun s child =>
          if env.sectorIntersects child && env.visible child then
            addTileOrDescendants env n child s
          else s) st1
      match ancestorTile with
      | some previous => { st2 with currentAncestorTile := some previous }
      | none => st2

/-- `WmtsLayer.assembleTiles`: clear the render list and, for each top-level
tile (constructed once by `createTopLevelTiles` and passed here explicitly),
reset `currentAncestorTile` to `null` and recurse when visible.
(`tile.update(dc)` refreshes externally owned per-tile camera state only.) -/
def assembleTiles (env : Env) (topLevelTiles : List Tile) (fuel : Nat)
    (st : LayerState) : LayerState :=
  topLevelTiles.foldl
    (fun s tile =>
      let s1 := { s with currentAncestorTile := none }
      if env.visible tile then addTileOrDescendants env fuel tile s1 else s1)
    { st with currentTiles := [] }

/-- The aspect-ratio `continue` chain of `convertTileMatrixSets`: square for
EPSG:3857, `matrixHeight * 2 == matrixWidth` for EPSG:4326 / OGC CRS84,
otherwise skip the level. -/
def matrixAspectOk (crs : String) (tm : TileMatrix) : Bool :=
  if isEpsg3857Crs crs then tm.matrixHeight == tm.matrixWidth
  else if isEpsg4326Crs crs || isOGCCrs84 crs then tm.matrixHeight * 2 == tm.matrixWidth
  else false

/-- The inner level-filtering loop of `WmtsLayer.convertTileMatrixSets` over
the levels after level 0, carrying `previousHeight` (initially 0; note the
source never records level 0's height): a level is kept when it passes the
aspect-ratio, even-dimension, square-tile and 256-pixel checks and
`previousHeight == 0 || 2 * previousHeight == matrixHeight`, and only kept
levels update `previousHeight`. -/
def convertLoop (crs : String) (previousHeight : Nat) : List TileMatrix → List TileMatrix
  | [] => []
  | tm :: rest =>
    if !(matrixAspectOk crs tm) then convertLoop crs previousHeight rest
    else if tm.matrixHeight % 2 != 0 || tm.matrixWidth % 2 != 0 then
      convertLoop crs previousHeight rest
    else if tm.tileHeight != tm.tileWidth then convertLoop crs previousHeight rest
    else if tm.tileHeight != 256 then convertLoop crs previousHeight rest
    else if previousHeight == 0 || 2 * previousHeight == tm.matrixHeight then
      tm :: convertLoop crs tm.matrixHeight rest
    else convertLoop crs previousHeight rest

/-- The per-set `compatibleTileMatrices` computation of
`convertTileMatrixSets`: level 0 (`j === 0`) is pushed unconditionally, the
remaining levels go through `convertLoop` with `previousHeight = 0`. -/
def compatibleTileMatricesFor (crs : String) : List TileMatrix → List TileMatrix
  | [] => []
  | first :: rest => first :: convertLoop crs 0 rest

/-- `WmtsLayer.convertTileMatrixSets`: drop candidate sets whose CRS is not
in one of the three supported families, filter each remaining set's levels,
and keep the converted set only when more than one level survived. -/
def convertTileMatrixSets (tileMatrixSets : List TileMatrixSetModel) :
    List TileMatrixSetModel :=
  tileMatrixSets.filterMap fun tileMatrixSet =>
    if !(isEpsg4326Crs tileMatrixSet.supportedCRS ||
         isEpsg3857Crs tileMatrixSet.supportedCRS ||
         isOGCCrs84 tileMatrixSet.supportedCRS) then
      none
    else
      let compatibleTileMatrices :=
        compatibleTileMatricesFor tileMatrixSet.supportedCRS tileMatrixSet.tileMatrix
      if compatibleTileMatrices.length > 1 then
        some { identifier := tileMatrixSet.identifier
               supportedCRS := tileMatrixSet.supportedCRS
               wellKnownScaleSet := tileMatrixSet.wellKnownScaleSet
               boundingBox := tileMatrixSet.boundingBox
               tileMatrix := compatibleTileMatrices }
      else none

/-- In the selection loop of `createConfigurationFromLayer` the comparison is
`tms.tileMatrix.length > highestResTileMatrixSet.length`; a converted tile
matrix set has no `length` property, so the right-hand side is `undefined`
and the JavaScript comparison of a number with `undefined` is always false. -/
def numGtUndefined (_n : Nat) : Bool := false

/-- The two locals of the selection loop in
`WmtsLayer.createConfigurationFromLayer`: the tracked
`highestResTileMatrixSet` and the loop variable `tms`. -/
structure SelState where
  highestRes : Option TileMatrixSetModel
  tmsVar : Option TileMatrixSetModel

/-- One iteration of the selection loop: set `tms`, then either initialize
`highestResTileMatrixSet` or replace it when the (always false) comparison
with its undefined `length` property succeeds. -/
def selStep (st : SelState) (s : TileMatrixSetModel) : SelState :=
  let st1 : SelState := { st with tmsVar := some s }
  match st1.highestRes with
  | none => { st1 with highestRes := some s }
  | some _ =>
    if numGtUndefined s.tileMatrix.length then { st1 with highestRes := some s }
    else st1

/-- The `config.tileMatrixSet` chosen by
`WmtsLayer.createConfigurationFromLayer` from the compatible sets: after the
selection loop the source assigns `config.tileMatrixSet = tms`, the loop
variable. An empty compatible list throws (`none`). -/
def createConfigTileMatrixSet (compatibleTileMatrixSets : List TileMatrixSetModel) :
    Option TileMatrixSetModel :=
  if compatibleTileMatrixSets.length > 0 then
    (compatibleTileMatrixSets.foldl selStep ⟨none, none⟩).tmsVar
  else none

/-- Modelled from the spec: `WWMath.clamp` (`util/WWMath` is not under
`src/`); §4.2 and §4.1 describe values "clamped to the image bounds" /
"clamp to matrix pixel bounds". -/
def clamp (value minV maxV : ℚ) : ℚ := min maxV (max minV value)

/-- The layer-level configuration consumed by tile and texture creation:
`this.sector`, `this.tileMatrixSet.supportedCRS`, the cache-path prefix and
image-format suffix that `makeTile` concatenates, and the two `util/WWMath`
projection functions that are not under `src/`:
* `epsg3857ToEpsg4326 x y` — modelled from the spec (§4.1: convert projected
  corner coordinates to geographic latitude via the inverse Mercator
  transform; longitude is linear), kept abstract as a parameter;
* `gudermannianInverse lat` — modelled from the spec (§4.2: the forward
  Mercator transform of a geographic latitude), kept abstract as a
  parameter. -/
structure WmtsLayerModel where
  sector : Sector
  supportedCRS : String
  cachePath : String
  imageSuffix : String
  epsg3857ToEpsg4326 : ℚ → ℚ → ℚ × ℚ
  gudermannianInverse : ℚ → ℚ

/-- `WmtsLayer.makeTile`: build the composite cache path
`cachePath + "-layer/" + identifier + "/" + row + "/" + column + "." + suffix`
and construct the tile. -/
def makeTile (L : WmtsLayerModel) (sector : Sector) (tileMatrix : TileMatrix)
    (row column : Nat) : Tile :=
  { sector := sector
    levelNumber := tileMatrix.levelNumber
    row := row
    column := column
    imagePath := L.cachePath ++ "-layer/" ++ tileMatrix.identifier ++ "/" ++
      toString row ++ "/" ++ toString column ++ "." ++ L.imageSuffix }

/-- `WmtsLayer.createTile4326`: lat/lon-ordered top-left corner; the tile
sector is carved from the layer sector by matrix dimensions. -/
def createTile4326 (L : WmtsLayerModel) (tileMatrix : TileMatrix)
    (row column : Nat) : Tile :=
  let tileDeltaLat := L.sector.deltaLatitude / tileMatrix.matrixHeight
  let tileDeltaLon := L.sector.deltaLongitude / tileMatrix.matrixWidth
  let maxLat := tileMatrix.topLeftCorner.1 - row * tileDeltaLat
  let minLat := maxLat - tileDeltaLat
  let minLon := tileMatrix.topLeftCorner.2 + tileDeltaLon * column
  let maxLon := minLon + tileDeltaLon
  makeTile L ⟨minLat, maxLat, minLon, maxLon⟩ tileMatrix row column

/-- `WmtsLayer.createTileCrs84`: as `createTile4326` with the two top-left
corner axes swapped (lon/lat-ordered). -/
def createTileCrs84 (L : WmtsLayerModel) (tileMatrix : TileMatrix)
    (row column : Nat) : Tile :=
  let tileDeltaLat := L.sector.deltaLatitude / tileMatrix.matrixHeight
  let tileDeltaLon := L.sector.deltaLongitude / tileMatrix.matrixWidth
  let maxLat := tileMatrix.topLeftCorner.2 - row * tileDeltaLat
  let minLat := maxLat - tileDeltaLat
  let minLon := tileMatrix.topLeftCorner.1 + tileDeltaLon * column
  let maxLon := minLon + tileDeltaLon
  makeTile L ⟨minLat, maxLat, minLon, maxLon⟩ tileMatrix row column

/-- `WmtsLayer.computeTileMatrixValues3857`, computed on demand rather than
memoized: pixel span from `scaleDenominator * 0.28e-3`, total map pixel
extents and the geographic deltas they span. -/
def tileMatrixValues3857 (tileMatrix : TileMatrix) : ℚ × ℚ × ℚ × ℚ :=
  let pixelSpan := tileMatrix.scaleDenominator * (28 / 100000)
  let tileSpanX := tileMatrix.tileWidth * pixelSpan
  let tileSpanY := tileMatrix.tileHeight * pixelSpan
  let tileMatrixMaxX := tileMatrix.topLeftCorner.1 + tileSpanX * tileMatrix.matrixWidth
  let tileMatrixMinY := tileMatrix.topLeftCorner.2 - tileSpanY * tileMatrix.matrixHeight
  let tileMatrixDeltaX := tileMatrixMaxX - tileMatrix.topLeftCorner.1
  let tileMatrixDeltaY := tileMatrix.topLeftCorner.2 - tileMatrixMinY
  (tileMatrixDeltaX, tileMatrixDeltaY,
    (tileMatrix.tileWidth * tileMatrix.matrixWidth : Nat),
    (tileMatrix.tileHeight * tileMatrix.matrixHeight : Nat))

/-- `WmtsLayer.createTile3857`: pixel-space addressing with a half-pixel
bleed on each edge, clamped to the matrix pixel bounds, converted to
projected coordinates and then to geographic degrees. -/
def createTile3857 (L : WmtsLayerModel) (tileMatrix : TileMatrix)
    (row column : Nat) : Tile :=
  let v := tileMatrixValues3857 tileMatrix
  let tileMatrixDeltaX := v.1
  let tileMatrixDeltaY := v.2.1
  let mapWidth := v.2.2.1
  let mapHeight := v.2.2.2
  let swX := clamp (column * tileMatrix.tileWidth - 1/2) 0 mapWidth
  let neY := clamp (row * tileMatrix.tileHeight - 1/2) 0 mapHeight
  let neX := clamp (swX + tileMatrix.tileWidth + 1/2) 0 mapWidth
  let swY := clamp (neY + tileMatrix.tileHeight + 1/2) 0 mapHeight
  let swLon := tileMatrix.topLeftCorner.1 + (swX / mapWidth) * tileMatrixDeltaX
  let swLat := tileMatrix.topLeftCorner.2 - (swY / mapHeight) * tileMatrixDeltaY
  let swDegrees := L.epsg3857ToEpsg4326 swLon swLat
  let neLon := tileMatrix.topLeftCorner.1 + (neX / mapWidth) * tileMatrixDeltaX
  let neLat := tileMatrix.topLeftCorner.2 - (neY / mapHeight) * tileMatrixDeltaY
  let neDegrees := L.epsg3857ToEpsg4326 neLon neLat
  makeTile L ⟨swDegrees.1, neDegrees.1, swDegrees.2, neDegrees.2⟩ tileMatrix row column

/-- `WmtsLayer.createTile`: branch on the tile matrix set's CRS; the
`if`/`else if` chain has no final `else`, so an unsupported CRS yields
`undefined`. -/
def createTile (L : WmtsLayerModel) (tileMatrix : TileMatrix)
    (row column : Nat) : Option Tile :=
  if isEpsg4326Crs L.supportedCRS then some (createTile4326 L tileMatrix row column)
  else if isEpsg3857Crs L.supportedCRS then some (createTile3857 L tileMatrix row column)
  else if isOGCCrs84 L.supportedCRS then some (createTileCrs84 L tileMatrix row column)
  else none

/-- A decoded image as the unprojection code reads it: dimensions plus the
flat RGBA data array (`data[k]`, four channel bytes per pixel, pixel `(x, y)`
at indices `4 * (x + y * width) + c`). -/
structure Image where
  width : Nat
  height : Nat
  data : Nat → Nat

/-- The source-row selection of `WmtsLayer.createTexture3857` for destination
row `y`: `sy = 1 - y / (height - 1)`, `lat = sy * deltaLatitude + minLatitude`,
`g = gudermannianInverse(lat)`, `dy = clamp(1 - (g - tMin) / (tMax - tMin), 0, 1)`,
`srcRow = floor(dy * (height - 1))`. -/
def srcRowFor (gud : ℚ → ℚ) (sector : Sector) (height : Nat) (y : Nat) : ℤ :=
  let sy : ℚ := 1 - (y : ℚ) / ((height : ℚ) - 1)
  let lat := sy * sector.deltaLatitude + sector.minLatitude
  let tMin := gud sector.minLatitude
  let tMax := gud sector.maxLatitude
  let g := gud lat
  let dy := clamp (1 - (g - tMin) / (tMax - tMin)) 0 1
  ⌊dy * ((height : ℚ) - 1)⌋

/-- The destination pixel data written by the unprojection loop of
`WmtsLayer.createTexture3857`: for every destination index
`kDest = 4 * (x + y * width) + c` with `x < width`, `y < height`, `c < 4`,
the loop stores `srcImageData.data[4 * (x + srcRow * width) + c]`; indices
outside the image keep `createImageData`'s zero initialization. -/
def createTexture3857Data (gud : ℚ → ℚ) (sector : Sector) (image : Image)
    (k : Nat) : Nat :=
  if k < 4 * image.width * image.height then
    let c := k % 4
    let p := k / 4
    let x := p % image.width
    let y := p / image.width
    image.data (4 * (x + (srcRowFor gud sector image.height y).toNat * image.width) + c)
  else 0

/-- `WmtsLayer.createTexture3857`, as the image-to-image remap it performs:
a destination image of the same width and height
(`destContext.createImageData(image.width, image.height)`), each destination
row copied from the nearest-neighbor source row, columns untouched. -/
def createTexture3857 (gud : ℚ → ℚ) (sector : Sector) (image : Image) : Image :=
  { width := image.width
    height := image.height
    data := createTexture3857Data gud sector image }

/-- Modelled from the spec: `render/Texture` is not under `src/`; §3
describes a texture cache entry as a decoded image handle with a byte size,
so a texture is its image together with the byte size of its RGBA data. -/
structure Texture where
  image : Image
  size : Nat

def mkTexture (image : Image) : Texture :=
  { image := image, size := 4 * image.width * image.height }

/-- `WmtsLayer.createTexture`: plain texture for EPSG:4326 and OGC CRS84,
Mercator unprojection for EPSG:3857; the chain has no final `else`, so an
unsupported CRS yields `undefined`. -/
def createTexture (L : WmtsLayerModel) (tile : Tile) (image : Image) :
    Option Texture :=
  if isEpsg4326Crs L.supportedCRS then some (mkTexture image)
  else if isEpsg3857Crs L.supportedCRS then
    some (mkTexture (createTexture3857 L.gudermannianInverse tile.sector image))
  else if isOGCCrs84 L.supportedCRS then some (mkTexture image)
  else none

/-- The `image.onload` callback of `WmtsLayer.retrieveTileImage`: create the
texture, remove the in-flight entry, and when a texture was produced insert
it into the GPU cache under the tile's `imagePath` with its byte size, set
`currentTilesInvalid`, clear the absent-mark and dispatch a redraw event. -/
def onImageLoad (L : WmtsLayerModel) (tile : Tile) (image : Image)
    (st : LayerState) : LayerState :=
  let texture? := createTexture L tile image
  let st1 := removeFromCurrentRetrievals tile.imagePath st
  match texture? with
  | some texture =>
    { st1 with
      gpuCache := (tile.imagePath, texture.size) :: st1.gpuCache
      currentTilesInvalid := true
      absentList := unmarkResourceAbsent tile.imagePath st1.absentList
      redrawCount := st1.redrawCount + 1 }
  | none => st1

/-- The `image.onerror` callback of `WmtsLayer.retrieveTileImage`: remove the
in-flight entry and mark the resource absent. -/
def onImageError (imagePath : String) (st : LayerState) : LayerState :=
  let st1 := removeFromCurrentRetrievals imagePath st
  { st1 with absentList := markResourceAbsent imagePath st1.absentList }

/-! ## Helper lemmas -/

theorem selStep_tmsVar (st : SelState) (s : TileMatrixSetModel) :
    (selStep st s).tmsVar = some s := by
  unfold selStep
  cases st.highestRes <;> simp [numGtUndefined]

theorem foldl_selStep_tmsVar :
    ∀ (l : List TileMatrixSetModel) (st : SelState),
      (l.foldl selStep st).tmsVar =
        match l.getLast? with
        | some x => some x
        | none => st.tmsVar := by
  intro l
  induction l with
  | nil => intro st; rfl
  | cons a t ih =>
    intro st
    simp only [List.foldl_cons]
    rw [ih (selStep st a)]
    cases t with
    | nil => simp [selStep_tmsVar]
    | cons b t' => rfl

theorem createConfigTileMatrixSet_eq_getLast (sets : List TileMatrixSetModel) :
    createConfigTileMatrixSet sets = sets.getLast? := by
  cases sets with
  | nil => rfl
  | cons a t =>
    unfold createConfigTileMatrixSet
    rw [if_pos (by simp), foldl_selStep_tmsVar]
    cases hg : (a :: t).getLast? with
    | none => simp at hg
    | some x => rfl

/-! ## Concrete fixtures for claim C1 -/

def tmFix (lvl h w : Nat) : TileMatrix :=
  { levelNumber := lvl, identifier := "m", matrixWidth := w, matrixHeight := h,
    tileWidth := 256, tileHeight := 256, topLeftCorner := (90, -180),
    scaleDenominator := 1 }

def tmsDeep : TileMatrixSetModel :=
  { identifier := "deep", supportedCRS := "EPSG:4326", wellKnownScaleSet := none,
    boundingBox := none, tileMatrix := [tmFix 0 1 2, tmFix 1 2 4, tmFix 2 4 8] }

def tmsShallow : TileMatrixSetModel :=
  { identifier := "shallow", supportedCRS := "EPSG:4326", wellKnownScaleSet := none,
    boundingBox := none, tileMatrix := [tmFix 0 1 2, tmFix 1 2 4] }

/-- C1. The claim says `createConfigurationFromLayer` sets
`config.tileMatrixSet` to the compatible set with the greatest number of
tile matrices. The code instead always assigns the selection loop's
last-visited set (its tracked maximum never advances because the comparison
reads an undefined `length` property): for every compatible list the chosen
set is the last one, and on a list whose first set has three usable levels
and whose last has two, the two-level set is chosen. -/
theorem c1_selection_uses_last_not_max :
    (∀ sets : List TileMatrixSetModel,
      createConfigTileMatrixSet sets = sets.getLast?) ∧
    createConfigTileMatrixSet [tmsDeep, tmsShallow] = some tmsShallow ∧
    tmsShallow.tileMatrix.length < tmsDeep.tileMatrix.length := by
  refine ⟨createConfigTileMatrixSet_eq_getLast, ?_, ?_⟩
  · rw [createConfigTileMatrixSet_eq_getLast]; rfl
  · decide

/-! ## Claim C10: unsupported CRS falls through to undefined -/

/-- C10. For a tile matrix set whose `supportedCRS` matches none of the
three supported families, `createTile` constructs no tile and `createTexture`
produces no texture: both `if`/`else if` chains fall through and return
`undefined` (here `none`), with no error thrown. -/
theorem c10_unsupported_crs_yields_undefined (L : WmtsLayerModel)
    (tileMatrix : TileMatrix) (row column : Nat) (tile : Tile) (image : Image)
    (h4326 : isEpsg4326Crs L.supportedCRS = false)
    (h3857 : isEpsg3857Crs L.supportedCRS = false)
    (hcrs84 : isOGCCrs84 L.supportedCRS = false) :
    createTile L tileMatrix row column = none ∧
    createTexture L tile image = none := by
  constructor
  · simp [createTile, h4326, h3857, hcrs84]
  · simp [createTexture, h4326, h3857, hcrs84]

def lambert93Layer : WmtsLayerModel :=
  { sector := ⟨-90, 90, -180, 180⟩, supportedCRS := "EPSG:2154",
    cachePath := "cache", imageSuffix := "png",
    epsg3857ToEpsg4326 := fun x y => (y, x), gudermannianInverse := fun v => v }

def tileC10 : Tile :=
  { sector := ⟨0, 1, 0, 1⟩, levelNumber := 0, row := 0, column := 0,
    imagePath := "t" }

def imageC10 : Image := { width := 1, height := 1, data := fun _ => 0 }

theorem c10_witness :
    createTile lambert93Layer (tmFix 0 1 2) 0 0 = none ∧
    createTexture lambert93Layer tileC10 imageC10 = none :=
  c10_unsupported_crs_yields_undefined lambert93Layer (tmFix 0 1 2) 0 0 tileC10
    imageC10 (by decide) (by decide) (by decide)

/-! ## Claim C7: adjacent geographic / CRS84 tiles share exact edges -/

/-- C7. For geographic (EPSG:4326) and CRS84 tile matrices with positive
dimensions and valid addresses, horizontally adjacent tiles share their
vertical edge exactly and vertically adjacent tiles share their horizontal
edge exactly, in exact (rational) arithmetic. -/
theorem c7_adjacent_tiles_share_exact_edges (L : WmtsLayerModel)
    (tm : TileMatrix) (row column : Nat)
    (hH : 0 < tm.matrixHeight) (hW : 0 < tm.matrixWidth)
    (hrow : row + 1 < tm.matrixHeight) (hcol : column + 1 < tm.matrixWidth) :
    (createTile4326 L tm row column).sector.maxLongitude =
      (createTile4326 L tm row (column + 1)).sector.minLongitude ∧
    (createTile4326 L tm row column).sector.minLatitude =
      (createTile4326 L tm (row + 1) column).sector.maxLatitude ∧
    (createTileCrs84 L tm row column).sector.maxLongitude =
      (createTileCrs84 L tm row (column + 1)).sector.minLongitude ∧
    (createTileCrs84 L tm row column).sector.minLatitude =
      (createTileCrs84 L tm (row + 1) column).sector.maxLatitude := by
  refine ⟨?_, ?_, ?_, ?_⟩ <;>
    · simp only [createTile4326, createTileCrs84, makeTile]
      push_cast
      ring

def geoLayerC7 : WmtsLayerModel :=
  { sector := ⟨-90, 90, -180, 180⟩, supportedCRS := "EPSG:4326",
    cachePath := "cache", imageSuffix := "png",
    epsg3857ToEpsg4326 := fun x y => (y, x), gudermannianInverse := fun v => v }

theorem c7_witness :
    (createTile4326 geoLayerC7 (tmFix 1 2 4) 0 1).sector.maxLongitude =
      (createTile4326 geoLayerC7 (tmFix 1 2 4) 0 2).sector.minLongitude ∧
    (createTile4326 geoLayerC7 (tmFix 1 2 4) 0 1).sector.minLatitude =
      (createTile4326 geoLayerC7 (tmFix 1 2 4) 1 1).sector.maxLatitude ∧
    (createTileCrs84 geoLayerC7 (tmFix 1 2 4) 0 1).sector.maxLongitude =
      (createTileCrs84 geoLayerC7 (tmFix 1 2 4) 0 2).sector.minLongitude ∧
    (createTileCrs84 geoLayerC7 (tmFix 1 2 4) 0 1).sector.minLatitude =
      (createTileCrs84 geoLayerC7 (tmFix 1 2 4) 1 1).sector.maxLatitude :=
  c7_adjacent_tiles_share_exact_edges geoLayerC7 (tmFix 1 2 4) 0 1
    (by decide) (by decide) (by decide) (by decide)

/-! ## Claim C8: rendering criteria and the polar detail threshold -/

/-- C8. `tileMeetsRenderingCriteria` accepts every tile on the last level of
the tile matrix set; any other tile is judged by
`!tile.mustSubdivide(dc, s)`, where `s` is the layer's `detailControl`
multiplied by 1.2 exactly when the sector lies entirely poleward of 75°;
with the default `detailControl` of 1.75, a tile whose sector starts at
latitude 80° is judged against the effective threshold 2.1. -/
theorem c8_rendering_criteria (env : Env) (tile : Tile) :
    (tile.levelNumber = env.numLevels - 1 →
      tileMeetsRenderingCriteria env tile = true) ∧
    (tile.levelNumber ≠ env.numLevels - 1 →
      tileMeetsRenderingCriteria env tile =
        !(env.mustSubdivide tile
          (if 75 ≤ tile.sector.minLatitude ∨ tile.sector.maxLatitude ≤ -75 then
            env.detailControl * 1.2
          else
            env.detailControl))) ∧
    (env.detailControl = 1.75 → tile.levelNumber ≠ env.numLevels - 1 →
      80 ≤ tile.sector.minLatitude →
      tileMeetsRenderingCriteria env tile = !(env.mustSubdivide tile 2.1)) := by
  refine ⟨fun hl => ?_, fun hl => ?_, fun hd hl h80 => ?_⟩
  · simp [tileMeetsRenderingCriteria, hl]
  · simp [tileMeetsRenderingCriteria, hl]
  · have h75 : 75 ≤ tile.sector.minLatitude := le_trans (by norm_num) h80
    have hs : (if 75 ≤ tile.sector.minLatitude ∨ tile.sector.maxLatitude ≤ -75 then
        env.detailControl * 1.2 else env.detailControl) = 2.1 := by
      rw [if_pos (Or.inl h75), hd]; norm_num
    simp [tileMeetsRenderingCriteria, hl, ← hs]

def envC8 : Env :=
  { numLevels := 3, detailControl := 1.75, expiration := false,
    mustSubdivide := fun _ s => s < 2, textureExpired := fun _ => false,
    visible := fun _ => true, sectorIntersects := fun _ => true,
    children := fun _ => [], urlOk := fun _ => true }

def tileC8 : Tile :=
  { sector := ⟨80, 85, 0, 45⟩, levelNumber := 0, row := 0, column := 0,
    imagePath := "t80" }

theorem c8_witness :
    tileMeetsRenderingCriteria envC8 tileC8 = !(envC8.mustSubdivide tileC8 2.1) :=
  (c8_rendering_criteria envC8 tileC8).2.2 (by norm_num [envC8])
    (by decide) (by norm_num [tileC8])

/-! ## Claim C5: at most one in-flight retrieval per imagePath -/

theorem contains_false_not_mem {l : List String} {a : String}
    (h : l.contains a = false) : a ∉ l := by
  intro hm
  rw [← List.elem_iff] at hm
  rw [show l.elem a = l.contains a from rfl, h] at hm
  cases hm

theorem indexOf_eraseIdx_eq_erase (p : String) :
    ∀ l : List String,
      (match indexOfFirst p l with
       | some index => l.eraseIdx index
       | none => l) = l.erase p := by
  intro l
  induction l with
  | nil => rfl
  | cons a t ih =>
    by_cases h : (a == p) = true
    · simp [indexOfFirst, h, List.erase_cons, beq_iff_eq.mp h, List.eraseIdx]
    · rw [Bool.not_eq_true] at h
      simp only [indexOfFirst, h, Bool.false_eq_true, if_false, List.erase_cons,
        beq_eq_false_iff_ne.mp h, ite_false]
      cases hf : indexOfFirst p t with
      | none =>
        rw [hf] at ih
        have ih' : t = t.erase p := ih
        show a :: t = a :: t.erase p
        exact congrArg _ ih'
      | some i =>
        rw [hf] at ih
        have ih' : t.eraseIdx i = t.erase p := ih
        show a :: t.eraseIdx i = a :: t.erase p
        exact congrArg _ ih'

theorem removeFromCurrentRetrievals_eq_erase (p : String) (st : LayerState) :
    (removeFromCurrentRetrievals p st).currentRetrievals =
      st.currentRetrievals.erase p := by
  unfold removeFromCurrentRetrievals
  rw [← indexOf_eraseIdx_eq_erase p st.currentRetrievals]
  cases indexOfFirst p st.currentRetrievals <;> rfl

/-- C5. At most one in-flight entry per `imagePath`: `retrieveTileImage` is
a no-op when the path is already in `currentRetrievals` or marked absent, it
preserves distinctness of `currentRetrievals` (so repeated calls for one
tile dispatch at most one fetch), `removeFromCurrentRetrievals` removes
exactly the first occurrence, and after removal no entry for that path
remains. -/
theorem c5_single_retrieval_per_path (env : Env) (tile : Tile)
    (st : LayerState) (p : String) :
    (st.currentRetrievals.contains tile.imagePath = true →
      retrieveTileImage env tile st = st) ∧
    (isResourceAbsent tile.imagePath st.absentList = true →
      retrieveTileImage env tile st = st) ∧
    (st.currentRetrievals.Nodup →
      (retrieveTileImage env tile st).currentRetrievals.Nodup) ∧
    ((removeFromCurrentRetrievals p st).currentRetrievals =
      st.currentRetrievals.erase p) ∧
    (st.currentRetrievals.Nodup →
      tile.imagePath ∉
        (removeFromCurrentRetrievals tile.imagePath st).currentRetrievals) := by
  refine ⟨fun hin => ?_, fun habs => ?_, fun hnd => ?_, ?_, fun hnd => ?_⟩
  · rw [retrieveTileImage, if_pos hin]
  · unfold retrieveTileImage
    by_cases hin : st.currentRetrievals.contains tile.imagePath = true
    · rw [if_pos hin]
    · rw [Bool.not_eq_true] at hin
      rw [if_neg (by rw [hin]; decide), if_pos habs]
  · unfold retrieveTileImage
    by_cases hin : st.currentRetrievals.contains tile.imagePath = true
    · rw [if_pos hin]; exact hnd
    · rw [Bool.not_eq_true] at hin
      rw [if_neg (by rw [hin]; decide)]
      by_cases habs : isResourceAbsent tile.imagePath st.absentList = true
      · rw [if_pos habs]; exact hnd
      · rw [Bool.not_eq_true] at habs
        rw [if_neg (by rw [habs]; decide)]
        by_cases hurl : env.urlOk tile = true
        · rw [if_neg (by rw [hurl]; decide)]
          have hmem := contains_false_not_mem hin
          simp only [List.nodup_append, List.nodup_cons, List.not_mem_nil,
            not_false_iff, List.nodup_nil, and_true, true_and]
          simp [List.nodup_append]
          exact ⟨hnd, hmem⟩
        · rw [Bool.not_eq_true] at hurl
          rw [if_pos (by rw [hurl]; decide)]
          exact hnd
  · exact removeFromCurrentRetrievals_eq_erase p st
  · rw [removeFromCurrentRetrievals_eq_erase]
    intro hm
    exact ((hnd.mem_erase_iff).mp hm).1 rfl

def envC5 : Env :=
  { numLevels := 2, detailControl := 1.75, expiration := false,
    mustSubdivide := fun _ _ => true, textureExpired := fun _ => false,
    visible := fun _ => true, sectorIntersects := fun _ => true,
    children := fun _ => [], urlOk := fun _ => true }

def tileC5 : Tile :=
  { sector := ⟨0, 1, 0, 1⟩, levelNumber := 1, row := 0, column := 0,
    imagePath := "inflight" }

def stC5 : LayerState :=
  { currentTiles := [], currentAncestorTile := none,
    currentRetrievals := ["inflight"], absentList := [], gpuCache := [],
    currentTilesInvalid := false, redrawCount := 0 }

theorem c5_witness : retrieveTileImage envC5 tileC5 stC5 = stC5 :=
  (c5_single_retrieval_per_path envC5 tileC5 stC5 "inflight").1 (by decide)

/-! ## Claim C9: effects of the success and failure callbacks -/

theorem removeFromCurrentRetrievals_fields (p : String) (st : LayerState) :
    removeFromCurrentRetrievals p st =
      { st with currentRetrievals := st.currentRetrievals.erase p } := by
  unfold removeFromCurrentRetrievals
  rw [← indexOf_eraseIdx_eq_erase p st.currentRetrievals]
  cases indexOfFirst p st.currentRetrievals with
  | none => rfl
  | some i => rfl

/-- C9. When `createTexture` produces a texture, the success callback
inserts it into the GPU resource cache keyed by the tile's `imagePath` with
its byte size, removes the `imagePath` from the in-flight list, clears any
absent-mark for that path, signals a redraw (and invalidates the current
tiles), leaving render list and ancestor field untouched; the failure
callback is exactly "remove the in-flight entry and mark the path absent" —
no other layer state changes and no retry is dispatched by either callback. -/
theorem c9_callback_effects (L : WmtsLayerModel) (tile : Tile) (image : Image)
    (st : LayerState) (texture : Texture)
    (htex : createTexture L tile image = some texture) :
    ((onImageLoad L tile image st).gpuCache =
        (tile.imagePath, texture.size) :: st.gpuCache ∧
      (onImageLoad L tile image st).currentRetrievals =
        st.currentRetrievals.erase tile.imagePath ∧
      isResourceAbsent tile.imagePath (onImageLoad L tile image st).absentList =
        false ∧
      (onImageLoad L tile image st).currentTilesInvalid = true ∧
      (onImageLoad L tile image st).redrawCount = st.redrawCount + 1 ∧
      (onImageLoad L tile image st).currentTiles = st.currentTiles ∧
      (onImageLoad L tile image st).currentAncestorTile =
        st.currentAncestorTile) ∧
    (onImageError tile.imagePath st =
        { st with
          currentRetrievals := st.currentRetrievals.erase tile.imagePath
          absentList := markResourceAbsent tile.imagePath st.absentList } ∧
      isResourceAbsent tile.imagePath (onImageError tile.imagePath st).absentList =
        true) := by
  constructor
  · unfold onImageLoad
    rw [htex, removeFromCurrentRetrievals_fields tile.imagePath st]
    refine ⟨rfl, rfl, ?_, rfl, rfl, rfl, rfl⟩
    show isResourceAbsent tile.imagePath
      (unmarkResourceAbsent tile.imagePath st.absentList) = false
    unfold isResourceAbsent unmarkResourceAbsent
    rw [show (List.filter (fun x => x != tile.imagePath) st.absentList).contains
          tile.imagePath
        = (List.filter (fun x => x != tile.imagePath) st.absentList).elem
          tile.imagePath from rfl]
    rw [Bool.eq_false_iff]
    intro hm
    rw [List.elem_iff] at hm
    rcases List.mem_filter.mp hm with ⟨-, hx⟩
    simp at hx
  · unfold onImageError
    rw [removeFromCurrentRetrievals_fields tile.imagePath st]
    refine ⟨rfl, ?_⟩
    show isResourceAbsent tile.imagePath
      (markResourceAbsent tile.imagePath st.absentList) = true
    unfold isResourceAbsent markResourceAbsent
    by_cases hmem : st.absentList.contains tile.imagePath = true
    · rw [if_pos hmem]; exact hmem
    · rw [Bool.not_eq_true] at hmem
      rw [if_neg (by rw [hmem]; decide)]
      show (tile.imagePath :: st.absentList).elem tile.imagePath = true
      simp

def crs84LayerC9 : WmtsLayerModel :=
  { sector := ⟨-90, 90, -180, 180⟩, supportedCRS := "urn:ogc:def:crs:OGC:1.3:CRS84",
    cachePath := "cache", imageSuffix := "png",
    epsg3857ToEpsg4326 := fun x y => (y, x), gudermannianInverse := fun v => v }

def tileC9 : Tile :=
  { sector := ⟨0, 1, 0, 1⟩, levelNumber := 1, row := 0, column := 0,
    imagePath := "fetched" }

def imageC9 : Image := { width := 2, height := 2, data := fun k => k }

def stC9 : LayerState :=
  { currentTiles := [], currentAncestorTile := none,
    currentRetrievals := ["fetched"], absentList := ["fetched"], gpuCache := [],
    currentTilesInvalid := false, redrawCount := 0 }

theorem c9_witness :
    (onImageLoad crs84LayerC9 tileC9 imageC9 stC9).gpuCache =
        (tileC9.imagePath, (mkTexture imageC9).size) :: stC9.gpuCache ∧
      (onImageLoad crs84LayerC9 tileC9 imageC9 stC9).currentRetrievals =
        stC9.currentRetrievals.erase tileC9.imagePath ∧
      isResourceAbsent tileC9.imagePath
        (onImageLoad crs84LayerC9 tileC9 imageC9 stC9).absentList = false ∧
      (onImageLoad crs84LayerC9 tileC9 imageC9 stC9).currentTilesInvalid = true ∧
      (onImageLoad crs84LayerC9 tileC9 imageC9 stC9).redrawCount =
        stC9.redrawCount + 1 ∧
      (onImageLoad crs84LayerC9 tileC9 imageC9 stC9).currentTiles =
        stC9.currentTiles ∧
      (onImageLoad crs84LayerC9 tileC9 imageC9 stC9).currentAncestorTile =
        stC9.currentAncestorTile :=
  (c9_callback_effects crs84LayerC9 tileC9 imageC9 stC9 (mkTexture imageC9)
    rfl).1

/-! ## Claim C2: the currentAncestorTile field across addTileOrDescendants -/

theorem retrieveTileImage_ancestor (env : Env) (tile : Tile) (st : LayerState) :
    (retrieveTileImage env tile st).currentAncestorTile =
      st.currentAncestorTile := by
  unfold retrieveTileImage
  split_ifs <;> rfl

theorem addTile_ancestor (env : Env) (tile : Tile) (st : LayerState) :
    (addTile env tile st).currentAncestorTile = st.currentAncestorTile := by
  have hret := retrieveTileImage_ancestor env tile st
  simp only [addTile]
  split
  · split
    · exact retrieveTileImage_ancestor env tile _
    · rfl
  · split
    · split
      · exact hret
      · exact hret
    · exact hret

theorem foldl_children_ancestor
    (f : Tile → LayerState → LayerState) (cond : Tile → Bool)
    (hf : ∀ (t : Tile) (s : LayerState) (a : Tile),
      s.currentAncestorTile = some a → (f t s).currentAncestorTile = some a) :
    ∀ (l : List Tile) (s : LayerState) (a : Tile),
      s.currentAncestorTile = some a →
      (l.foldl (fun s c => if cond c then f c s else s) s).currentAncestorTile =
        some a := by
  intro l
  induction l with
  | nil => intro s a h; exact h
  | cons c t ih =>
    intro s a h
    simp only [List.foldl_cons]
    by_cases hc : cond c = true
    · exact ih _ a (by rw [if_pos hc]; exact hf c s a h)
    · rw [Bool.not_eq_true] at hc
      exact ih _ a (by rw [if_neg (by rw [hc]; decide)]; exact h)

/-- C2 (amended). Whenever the entry value of `currentAncestorTile` is
non-null, `addTileOrDescendants` restores exactly that value before
returning, at every recursion depth and for every tile, layer state and
fuel bound. -/
theorem c2_ancestor_restored_when_nonnull (env : Env) :
    ∀ (fuel : Nat) (tile : Tile) (st : LayerState) (a : Tile),
      st.currentAncestorTile = some a →
      (addTileOrDescendants env fuel tile st).currentAncestorTile = some a := by
  intro fuel
  induction fuel with
  | zero => intro tile st a h; exact h
  | succ n ih =>
    intro tile st a h
    rw [addTileOrDescendants]
    by_cases hcrit : tileMeetsRenderingCriteria env tile = true
    · rw [if_pos hcrit, addTile_ancestor]; exact h
    · rw [Bool.not_eq_true] at hcrit
      rw [if_neg (by rw [hcrit]; decide)]
      by_cases hcond : (isTileTextureInMemory st tile || tile.levelNumber == 0) = true
      · simp only [hcond, if_true, h]
      · rw [Bool.not_eq_true] at hcond
        simp only [hcond, Bool.false_eq_true, if_false]
        exact foldl_children_ancestor
          (fun c s => addTileOrDescendants env n c s)
          (fun c => env.sectorIntersects c && env.visible c)
          (fun t s a h => ih t s a h)
          (env.children tile) st a h

def tileC2 : Tile :=
  { sector := ⟨0, 1, 0, 1⟩, levelNumber := 0, row := 0, column := 0,
    imagePath := "top" }

def envC2 : Env :=
  { numLevels := 2, detailControl := 7/4, expiration := false,
    mustSubdivide := fun _ _ => true, textureExpired := fun _ => false,
    visible := fun _ => true, sectorIntersects := fun _ => true,
    children := fun _ => [], urlOk := fun _ => true }

def stC2 : LayerState :=
  { currentTiles := [], currentAncestorTile := none, currentRetrievals := [],
    absentList := [], gpuCache := [], currentTilesInvalid := false,
    redrawCount := 0 }

/-- C2 (counterexample). A call entered with `currentAncestorTile = null`
during which the tile became the ancestor-of-record does not restore the
null entry value: the level-0 tile stays recorded after the call returns,
because the source's `finally` block only restores when the saved local is
truthy. -/
theorem c2_counterexample :
    (addTileOrDescendants envC2 1 tileC2 stC2).currentAncestorTile ≠
      stC2.currentAncestorTile := by
  decide

def stC2entered : LayerState :=
  { currentTiles := [], currentAncestorTile := some tileC2,
    currentRetrievals := [], absentList := [], gpuCache := [],
    currentTilesInvalid := false, redrawCount := 0 }

def tileC2child : Tile :=
  { sector := ⟨0, 1, 0, 1⟩, levelNumber := 1, row := 0, column := 0,
    imagePath := "child" }

theorem c2_witness :
    (addTileOrDescendants envC2 2 tileC2child stC2entered).currentAncestorTile =
      some tileC2 :=
  c2_ancestor_restored_when_nonnull envC2 2 tileC2child stC2entered tileC2 rfl

/-! ## Claim C4: duplicate entries in the assembled render list -/

theorem retrieveTileImage_currentTiles (env : Env) (tile : Tile) (st : LayerState) :
    (retrieveTileImage env tile st).currentTiles = st.currentTiles := by
  unfold retrieveTileImage
  split_ifs <;> rfl

/-- C4 (amended). Each `addTile` call appends at most one entry to the
render list, and a tile whose own texture is cached is appended exactly
once per acceptance; but an ancestor-of-record is appended once per accepted
descendant without a cached texture, so the assembled render list may
contain the same ancestor tile several times (see the counterexample). -/
theorem c4_addTile_appends_at_most_one (env : Env) (tile : Tile) (st : LayerState) :
    (∃ pushed : List Tile,
      (addTile env tile st).currentTiles = st.currentTiles ++ pushed ∧
        pushed.length ≤ 1) ∧
    (cacheContains st.gpuCache tile.imagePath = true →
      (addTile env tile st).currentTiles = st.currentTiles ++ [tile]) := by
  constructor
  · simp only [addTile]
    split
    · split
      · exact ⟨[tile], by rw [retrieveTileImage_currentTiles], Nat.le.refl⟩
      · exact ⟨[tile], rfl, Nat.le.refl⟩
    · split
      · split
        · rename_i ancestor heq hmem
          refine ⟨[ancestor], ?_, Nat.le.refl⟩
          show (retrieveTileImage env tile st).currentTiles ++ [ancestor] =
            st.currentTiles ++ [ancestor]
          rw [retrieveTileImage_currentTiles]
        · exact ⟨[], by rw [retrieveTileImage_currentTiles, List.append_nil],
            Nat.zero_le 1⟩
      · exact ⟨[], by rw [retrieveTileImage_currentTiles, List.append_nil],
          Nat.zero_le 1⟩
  · intro hc
    simp only [addTile, hc, if_true]
    split
    · rw [retrieveTileImage_currentTiles]
    · rfl

def tileC4top : Tile :=
  { sector := ⟨0, 1, 0, 1⟩, levelNumber := 0, row := 0, column := 0,
    imagePath := "p0" }

def tileC4a : Tile :=
  { sector := ⟨0, 1, 0, 1⟩, levelNumber := 1, row := 0, column := 0,
    imagePath := "c1" }

def tileC4b : Tile :=
  { sector := ⟨0, 1, 0, 1⟩, levelNumber := 1, row := 0, column := 1,
    imagePath := "c2" }

def envC4 : Env :=
  { numLevels := 2, detailControl := 7/4, expiration := false,
    mustSubdivide := fun _ _ => true, textureExpired := fun _ => false,
    visible := fun _ => true, sectorIntersects := fun _ => true,
    children := fun t => if t.levelNumber == 0 then [tileC4a, tileC4b] else [],
    urlOk := fun _ => true }

def stC4 : LayerState :=
  { currentTiles := [], currentAncestorTile := none, currentRetrievals := [],
    absentList := [], gpuCache := [("p0", 1)], currentTilesInvalid := false,
    redrawCount := 0 }

/-- C4 (counterexample). One frame in which a level-0 tile with a cached
texture becomes the ancestor-of-record and both of its accepted children
lack cached textures: `assembleTiles` produces the render list
`[tileC4top, tileC4top]`, which contains the same ancestor tile twice. -/
theorem c4_counterexample :
    (assembleTiles envC4 [tileC4top] 2 stC4).currentTiles =
      [tileC4top, tileC4top] ∧
    ¬ (assembleTiles envC4 [tileC4top] 2 stC4).currentTiles.Nodup := by
  constructor
  · rfl
  · decide

def stC4w : LayerState :=
  { currentTiles := [], currentAncestorTile := none, currentRetrievals := [],
    absentList := [], gpuCache := [("p0", 1)], currentTilesInvalid := false,
    redrawCount := 0 }

theorem c4_witness :
    (addTile envC4 tileC4top stC4w).currentTiles =
      stC4w.currentTiles ++ [tileC4top] :=
  (c4_addTile_appends_at_most_one envC4 tileC4top stC4w).2 (by decide)

/-! ## Claim C3: which levels convertTileMatrixSets retains -/

/-- The four per-level `continue` checks of `convertTileMatrixSets` that do
not depend on the previously retained level: CRS-dependent aspect ratio,
even dimensions, square tiles, 256-pixel tiles. -/
def tileMatrixConforms (crs : String) (tm : TileMatrix) : Bool :=
  matrixAspectOk crs tm && tm.matrixHeight % 2 == 0 && tm.matrixWidth % 2 == 0 &&
    tm.tileHeight == tm.tileWidth && tm.tileHeight == 256

/-- The retained-level chain property actually enforced on the levels after
level 0: every retained level conforms, and its `matrixHeight` doubles the
previously retained level's height whenever some level has already been
retained since level 0 (`p ≠ 0`); `p = 0` — in particular at the first
retained subsequent level, because the source never records level 0's
height — admits any height. -/
def chainFrom (crs : String) : Nat → List TileMatrix → Prop
  | _, [] => True
  | p, tm :: rest =>
    tileMatrixConforms crs tm = true ∧ (p ≠ 0 → tm.matrixHeight = 2 * p) ∧
      chainFrom crs tm.matrixHeight rest

theorem convertLoop_chain (crs : String) :
    ∀ (l : List TileMatrix) (p : Nat), chainFrom crs p (convertLoop crs p l) := by
  intro l
  induction l with
  | nil => intro p; rw [convertLoop]; trivial
  | cons tm rest ih =>
    intro p
    rw [convertLoop]
    by_cases h1 : matrixAspectOk crs tm = true
    · rw [if_neg (by rw [h1]; decide)]
      by_cases h2 : (tm.matrixHeight % 2 != 0 || tm.matrixWidth % 2 != 0) = true
      · rw [if_pos h2]; exact ih p
      · rw [Bool.not_eq_true] at h2
        rw [if_neg (by rw [h2]; decide)]
        by_cases h3 : (tm.tileHeight != tm.tileWidth) = true
        · rw [if_pos h3]; exact ih p
        · rw [Bool.not_eq_true] at h3
          rw [if_neg (by rw [h3]; decide)]
          by_cases h4 : (tm.tileHeight != 256) = true
          · rw [if_pos h4]; exact ih p
          · rw [Bool.not_eq_true] at h4
            rw [if_neg (by rw [h4]; decide)]
            by_cases h5 : (p == 0 || 2 * p == tm.matrixHeight) = true
            · rw [if_pos h5]
              refine ⟨?_, ?_, ih tm.matrixHeight⟩
              · have h2' := h2
                simp only [Bool.or_eq_false_iff, bne_eq_false_iff_eq] at h2'
                have e3 := bne_eq_false_iff_eq.mp h3
                have e4 := bne_eq_false_iff_eq.mp h4
                have e34 : tm.tileWidth = 256 := e3 ▸ e4
                simp [tileMatrixConforms, h1, h2'.1, h2'.2, e3, e4, e34]
              · intro hp
                rcases Bool.or_eq_true_iff.mp h5 with h | h
                · exact absurd (beq_iff_eq.mp h) hp
                · exact (beq_iff_eq.mp h).symm
            · rw [Bool.not_eq_true] at h5
              rw [if_neg (by rw [h5]; decide)]
              exact ih p
    · rw [Bool.not_eq_true] at h1
      rw [if_pos (by rw [h1]; decide)]
      exact ih p

/-- C3 (amended). Every set produced by `convertTileMatrixSets` comes from a
candidate with a supported CRS, retains the candidate's level 0
unconditionally, retains a subsequent level only if it passes the
aspect-ratio / even-dimension / square-tile / 256-pixel checks and — once a
subsequent level has already been retained — has exactly double the
previously retained level's `matrixHeight` (the first retained subsequent
level is not checked against level 0, whose height the source never
records), and sets retaining fewer than two levels are discarded. -/
theorem c3_retained_levels (sets : List TileMatrixSetModel)
    (s : TileMatrixSetModel) (h : s ∈ convertTileMatrixSets sets) :
    (isEpsg4326Crs s.supportedCRS || isEpsg3857Crs s.supportedCRS ||
      isOGCCrs84 s.supportedCRS) = true ∧
    2 ≤ s.tileMatrix.length ∧
    ∃ src, src ∈ sets ∧ src.supportedCRS = s.supportedCRS ∧
      ∃ tm0 rest, src.tileMatrix = tm0 :: rest ∧
        s.tileMatrix = tm0 :: convertLoop s.supportedCRS 0 rest ∧
        chainFrom s.supportedCRS 0 (convertLoop s.supportedCRS 0 rest) := by
  unfold convertTileMatrixSets at h
  rcases List.mem_filterMap.mp h with ⟨src, hsrc, hf⟩
  dsimp only at hf
  by_cases hcrs : (isEpsg4326Crs src.supportedCRS ||
      isEpsg3857Crs src.supportedCRS || isOGCCrs84 src.supportedCRS) = true
  · rw [if_neg (by rw [hcrs]; decide)] at hf
    by_cases hlen :
        (compatibleTileMatricesFor src.supportedCRS src.tileMatrix).length > 1
    · rw [if_pos hlen] at hf
      have hs := Option.some.inj hf
      cases hs
      refine ⟨hcrs, ?_, src, hsrc, rfl, ?_⟩
      · exact hlen
      · cases htm : src.tileMatrix with
        | nil =>
          rw [htm] at hlen
          exact absurd hlen (by simp [compatibleTileMatricesFor])
        | cons tm0 rest =>
          refine ⟨tm0, rest, rfl, rfl, ?_⟩
          exact convertLoop_chain src.supportedCRS rest 0
    · rw [if_neg hlen] at hf; cases hf
  · rw [Bool.not_eq_true] at hcrs
    rw [if_pos (by rw [hcrs]; decide)] at hf
    cases hf

def tmC3lvl0 : TileMatrix :=
  { levelNumber := 0, identifier := "L0", matrixWidth := 2, matrixHeight := 1,
    tileWidth := 256, tileHeight := 256, topLeftCorner := (90, -180),
    scaleDenominator := 1 }

def tmC3lvl1 : TileMatrix :=
  { levelNumber := 1, identifier := "L1", matrixWidth := 8, matrixHeight := 4,
    tileWidth := 256, tileHeight := 256, topLeftCorner := (90, -180),
    scaleDenominator := 1 }

def setC3 : TileMatrixSetModel :=
  { identifier := "S", supportedCRS := "EPSG:4326", wellKnownScaleSet := none,
    boundingBox := none, tileMatrix := [tmC3lvl0, tmC3lvl1] }

def setC3out : TileMatrixSetModel :=
  { identifier := "S", supportedCRS := "EPSG:4326", wellKnownScaleSet := none,
    boundingBox := none, tileMatrix := [tmC3lvl0, tmC3lvl1] }

/-- C3 (counterexample). A candidate whose level 0 has `matrixHeight = 1`
and whose level 1 has `matrixHeight = 4` (conforming in every other
respect): the code retains level 1 — because level 0's height was never
recorded, `previousHeight` is still 0 — even though 4 is not double 1, so a
subsequent level is *not* retained only-if its height doubles the
previously retained level when that level is level 0. -/
theorem c3_counterexample :
    convertTileMatrixSets [setC3] = [setC3out] ∧
    tmC3lvl1 ∈ setC3out.tileMatrix ∧
    tmC3lvl1.matrixHeight ≠ 2 * tmC3lvl0.matrixHeight := by
  refine ⟨rfl, ?_, ?_⟩ <;> decide

theorem c3_witness :
    (isEpsg4326Crs setC3out.supportedCRS || isEpsg3857Crs setC3out.supportedCRS ||
      isOGCCrs84 setC3out.supportedCRS) = true ∧
    2 ≤ setC3out.tileMatrix.length ∧
    ∃ src, src ∈ [setC3] ∧ src.supportedCRS = setC3out.supportedCRS ∧
      ∃ tm0 rest, src.tileMatrix = tm0 :: rest ∧
        setC3out.tileMatrix = tm0 :: convertLoop setC3out.supportedCRS 0 rest ∧
        chainFrom setC3out.supportedCRS 0 (convertLoop setC3out.supportedCRS 0 rest) :=
  c3_retained_levels [setC3] setC3out
    (by rw [show convertTileMatrixSets [setC3] = [setC3out] from rfl]
        exact List.mem_singleton_self setC3out)

/-! ## Claim C6: the Mercator unprojection is a per-row remap -/

theorem floor_clamp_bounds (height : Nat) (h2 : 2 ≤ height) (v : ℚ) :
    0 ≤ ⌊clamp v 0 1 * ((height : ℚ) - 1)⌋ ∧
      (⌊clamp v 0 1 * ((height : ℚ) - 1)⌋).toNat < height := by
  have hH : (0 : ℚ) ≤ (height : ℚ) - 1 := by
    have : (2 : ℚ) ≤ (height : ℚ) := by exact_mod_cast h2
    linarith
  have h0 : 0 ≤ clamp v 0 1 := le_min (by norm_num) (le_max_left 0 v)
  have h1 : clamp v 0 1 ≤ 1 := min_le_left _ _
  have hfl0 : 0 ≤ ⌊clamp v 0 1 * ((height : ℚ) - 1)⌋ :=
    Int.floor_nonneg.mpr (mul_nonneg h0 hH)
  have hle : clamp v 0 1 * ((height : ℚ) - 1) ≤ (height : ℚ) - 1 :=
    mul_le_of_le_one_left hH h1
  have hcast : ((height : ℚ) - 1) = ((height - 1 : ℕ) : ℚ) := by
    have h1n : 1 ≤ height := le_trans (by norm_num) h2
    push_cast [h1n]
    ring
  have hflle : ⌊clamp v 0 1 * ((height : ℚ) - 1)⌋ ≤ ((height - 1 : ℕ) : ℤ) :=
    calc ⌊clamp v 0 1 * ((height : ℚ) - 1)⌋ ≤ ⌊((height : ℚ) - 1)⌋ :=
        Int.floor_le_floor hle
      _ = ((height - 1 : ℕ) : ℤ) := by rw [hcast, Int.floor_natCast]
  refine ⟨hfl0, ?_⟩
  have h' : (⌊clamp v 0 1 * ((height : ℚ) - 1)⌋).toNat ≤ height - 1 :=
    Int.toNat_le.mpr hflle
  omega

theorem srcRowFor_bounds (gud : ℚ → ℚ) (sector : Sector) (height y : Nat)
    (h2 : 2 ≤ height) :
    0 ≤ srcRowFor gud sector height y ∧
      (srcRowFor gud sector height y).toNat < height := by
  exact floor_clamp_bounds height h2 _

/-- C6. For a source image of height at least 2 and a Mercator sector with
`minLatitude < maxLatitude` (so the projected range is nondegenerate —
`gudermannianInverse` is strictly increasing), `createTexture3857` yields an
image of identical width and height in which every destination pixel
`(x, y)` takes all four channels from source pixel `(x, srcRow)` for the
single source row `srcRow = floor(clamp(1 − (g(lat_y) − g(minLat)) /
(g(maxLat) − g(minLat)), 0, 1) · (height − 1))` (`srcRowFor`), which lies
within the image bounds; columns are never remapped. -/
theorem c6_unprojection_row_remap (gud : ℚ → ℚ) (sector : Sector)
    (image : Image) (x y c : Nat) (hheight : 2 ≤ image.height)
    (hx : x < image.width) (hy : y < image.height) (hc : c < 4)
    (hlat : sector.minLatitude < sector.maxLatitude)
    (hmono : gud sector.minLatitude < gud sector.maxLatitude) :
    (createTexture3857 gud sector image).width = image.width ∧
    (createTexture3857 gud sector image).height = image.height ∧
    0 ≤ srcRowFor gud sector image.height y ∧
    (srcRowFor gud sector image.height y).toNat < image.height ∧
    (createTexture3857 gud sector image).data (4 * (x + y * image.width) + c) =
      image.data (4 * (x + (srcRowFor gud sector image.height y).toNat *
        image.width) + c) := by
  obtain ⟨hr0, hrlt⟩ := srcRowFor_bounds gud sector image.height y hheight
  refine ⟨rfl, rfl, hr0, hrlt, ?_⟩
  have hw : 0 < image.width := lt_of_le_of_lt (Nat.zero_le x) hx
  have hk : 4 * (x + y * image.width) + c < 4 * image.width * image.height := by
    have h1 : x + y * image.width < image.width * image.height := by
      calc x + y * image.width < image.width + y * image.width := by omega
        _ = (y + 1) * image.width := by ring
        _ ≤ image.height * image.width := Nat.mul_le_mul_right _ hy
        _ = image.width * image.height := Nat.mul_comm _ _
    have h4 : 4 * image.width * image.height =
        4 * (image.width * image.height) := by ring
    omega
  have e1 : (4 * (x + y * image.width) + c) % 4 = c := by omega
  have e2 : (4 * (x + y * image.width) + c) / 4 = x + y * image.width := by omega
  have e3 : (x + y * image.width) % image.width = x := by
    rw [Nat.add_mul_mod_self_right]
    exact Nat.mod_eq_of_lt hx
  have e4 : (x + y * image.width) / image.width = y := by
    rw [Nat.add_mul_div_right _ _ hw, Nat.div_eq_of_lt hx]
    omega
  show createTexture3857Data gud sector image (4 * (x + y * image.width) + c) =
    image.data (4 * (x + (srcRowFor gud sector image.height y).toNat *
      image.width) + c)
  unfold createTexture3857Data
  rw [if_pos hk]
  simp only [e1, e2, e3, e4]

def sectorC6 : Sector := ⟨0, 1, 0, 1⟩

def imageC6 : Image := { width := 1, height := 2, data := fun k => k }

theorem c6_witness :
    (createTexture3857 id sectorC6 imageC6).width = imageC6.width ∧
    (createTexture3857 id sectorC6 imageC6).height = imageC6.height ∧
    0 ≤ srcRowFor id sectorC6 imageC6.height 0 ∧
    (srcRowFor id sectorC6 imageC6.height 0).toNat < imageC6.height ∧
    (createTexture3857 id sectorC6 imageC6).data
        (4 * (0 + 0 * imageC6.width) + 0) =
      imageC6.data (4 * (0 + (srcRowFor id sectorC6 imageC6.height 0).toNat *
        imageC6.width) + 0) :=
  c6_unprojection_row_remap id sectorC6 imageC6 0 0 0 (by norm_num [imageC6])
    (by norm_num [imageC6]) (by norm_num [imageC6]) (by norm_num)
    (by norm_num [sectorC6]) (by norm_num [sectorC6])
